import Mathlib

/-!
Verification of the Stellara contracts event-emission module
(`Contracts/shared/src/events.rs`) against its specification.

Shallow embedding conventions:
- `Symbol` and `String` values are modelled as Lean `String`s
  (`symbol_short!("x")` and `Symbol::new(env, s)` both intern text).
- `Address` is an opaque identity, modelled as a wrapped `Nat`.
- `i128` values are modelled as `Int`; `u32`/`u64`/`u128` as `Nat`.
  The soroban build traps on i128 overflow (overflow checks), so the
  single arithmetic operation in this module (`base_rewards +
  bonus_rewards` in `rewards_claimed`) is exact whenever a call
  completes; it is modelled as exact `Int` addition.
- `soroban_sdk::Vec<Val>` is a `List Val`; `Map<Symbol, Vec<Val>>` is an
  association list with update-or-insert `set` and lookup `get`
  semantics (`Metadata`).
- `env.events().publish(topics, payload)` appends a `Published` record;
  a helper's effect is the ordered list of its publishes.
-/

/-- Opaque on-chain identity (soroban `Address`). -/
structure Address where
  id : Nat
deriving DecidableEq

/-- A soroban host value as it appears in event `data` vectors, channel
keys and payload tuples. -/
inductive Val where
  | i128 (n : Int)
  | u32 (n : Nat)
  | u64 (n : Nat)
  | u128 (n : Nat)
  | boolV (b : Bool)
  | address (a : Address)
  | symbol (s : String)
  | str (s : String)

/-- `Map<Symbol, Vec<Val>>` as an association list. -/
abbrev Metadata := List (String × List Val)

/-- `Map::set`: update the value at a key, or append a new entry. -/
def mapSet (m : Metadata) (k : String) (v : List Val) : Metadata :=
  match m with
  | [] => [(k, v)]
  | (k', v') :: rest =>
    if k = k' then (k, v) :: rest else (k', v') :: mapSet rest k v

/-- `Map::get`: look up a key. -/
def mapGet (m : Metadata) (k : String) : Option (List Val) :=
  match m with
  | [] => none
  | (k', v) :: rest => if k = k' then some v else mapGet rest k

-- Standard event topic names (`pub mod topics`), values of `symbol_short!`.
namespace topics

-- Core token events
def TRANSFER : String := "transfer"
def APPROVE : String := "approve"
def MINT : String := "mint"
def BURN : String := "burn"

-- Trading events
def TRADE_EXECUTED : String := "trade"
def CONTRACT_PAUSED : String := "paused"
def CONTRACT_UNPAUSED : String := "unpause"
def FEE_COLLECTED : String := "fee"

-- Staking events
def STAKE : String := "stake"
def UNSTAKE : String := "unstake"
def REWARDS_CLAIMED : String := "rewards_claimed"
def POOL_UPDATED : String := "pool_updated"

-- Governance events
def PROPOSAL_CREATED : String := "propose"
def PROPOSAL_APPROVED : String := "approve"
def PROPOSAL_REJECTED : String := "reject"
def PROPOSAL_EXECUTED : String := "execute"
def PROPOSAL_CANCELLED : String := "cancel"
def VOTE : String := "vote"

-- Admin and authorization events
def ADMIN_CHANGED : String := "admin_changed"
def AUTHORIZATION_CHANGED : String := "auth_changed"
def EMERGENCY_MODE : String := "emergency_mode"

-- Oracle events
def ORACLE_UPDATED : String := "oracle_updated"

-- Upgrade events
def UPGRADE_PROPOSED : String := "upgrade_proposed"
def UPGRADE_EXECUTED : String := "upgrade_executed"

-- Social rewards events
def REWARD_ADDED : String := "reward"
def REWARD_CLAIMED : String := "claimed"

end topics

/-- The Topic Registry as an enumeration: constant name paired with its
assigned short identifier, in source order. -/
def topicRegistry : List (String × String) :=
  [ ("TRANSFER", topics.TRANSFER)
  , ("APPROVE", topics.APPROVE)
  , ("MINT", topics.MINT)
  , ("BURN", topics.BURN)
  , ("TRADE_EXECUTED", topics.TRADE_EXECUTED)
  , ("CONTRACT_PAUSED", topics.CONTRACT_PAUSED)
  , ("CONTRACT_UNPAUSED", topics.CONTRACT_UNPAUSED)
  , ("FEE_COLLECTED", topics.FEE_COLLECTED)
  , ("STAKE", topics.STAKE)
  , ("UNSTAKE", topics.UNSTAKE)
  , ("REWARDS_CLAIMED", topics.REWARDS_CLAIMED)
  , ("POOL_UPDATED", topics.POOL_UPDATED)
  , ("PROPOSAL_CREATED", topics.PROPOSAL_CREATED)
  , ("PROPOSAL_APPROVED", topics.PROPOSAL_APPROVED)
  , ("PROPOSAL_REJECTED", topics.PROPOSAL_REJECTED)
  , ("PROPOSAL_EXECUTED", topics.PROPOSAL_EXECUTED)
  , ("PROPOSAL_CANCELLED", topics.PROPOSAL_CANCELLED)
  , ("VOTE", topics.VOTE)
  , ("ADMIN_CHANGED", topics.ADMIN_CHANGED)
  , ("AUTHORIZATION_CHANGED", topics.AUTHORIZATION_CHANGED)
  , ("EMERGENCY_MODE", topics.EMERGENCY_MODE)
  , ("ORACLE_UPDATED", topics.ORACLE_UPDATED)
  , ("UPGRADE_PROPOSED", topics.UPGRADE_PROPOSED)
  , ("UPGRADE_EXECUTED", topics.UPGRADE_EXECUTED)
  , ("REWARD_ADDED", topics.REWARD_ADDED)
  , ("REWARD_CLAIMED", topics.REWARD_CLAIMED) ]

/-- `StandardEvent`: the standardized event envelope. -/
structure StandardEvent where
  event_type : String
  contract_address : Address
  user_address : Option Address
  data : List Val
  metadata : Metadata
  timestamp : Nat
  version : Nat

/-- `TradeExecutedEvent`: typed legacy record for executed trades. -/
structure TradeExecutedEvent where
  trade_id : Nat
  trader : Address
  pair : String
  amount : Int
  price : Int
  is_buy : Bool
  fee_amount : Int
  fee_token : Address
  timestamp : Nat

/-- `FeeCollectedEvent`: typed legacy record for collected fees. -/
structure FeeCollectedEvent where
  payer : Address
  recipient : Address
  amount : Int
  token : Address
  timestamp : Nat

/-- The payload argument of `env.events().publish`. -/
inductive Payload where
  | i128 (n : Int)
  | addressP (a : Address)
  | boolP (b : Bool)
  | tupleP (vs : List Val)
  | stdTuple (contract : Address) (user : Option Address)
      (data : List Val) (metadata : Metadata)
      (timestamp : Nat) (version : Nat)
  | trade (e : TradeExecutedEvent)
  | fee (e : FeeCollectedEvent)

/-- One `publish(topics, payload)` call: channel key plus payload. -/
structure Published where
  topics : List Val
  payload : Payload

/-- Execution context: the parts of soroban's `Env` this module reads
(`current_contract_address` and `ledger().timestamp()`). -/
structure Env where
  current_contract_address : Address
  ledger_timestamp : Nat

namespace EventEmitter

/-- Current event schema version. -/
def CURRENT_VERSION : Nat := 1

-- Standard metadata keys for consistent indexing
def AMOUNT_KEY : String := "amount"
def FROM_KEY : String := "from"
def TO_KEY : String := "to"
def TOKEN_KEY : String := "token"
def PAIR_KEY : String := "pair"
def PRICE_KEY : String := "price"
def FEE_KEY : String := "fee"
def REASON_KEY : String := "reason"
def PROPOSAL_ID_KEY : String := "proposal_id"
def VOTE_TYPE_KEY : String := "vote_type"
def LOCK_PERIOD_KEY : String := "lock_period"
def REWARD_RATE_KEY : String := "reward_rate"

/-- `EventEmitter::emit_standard`: build a `StandardEvent` (stamping the
emitter identity, timestamp and version from the context/constant) and
publish its field tuple on the `(stellara_event, event_type)` channel. -/
def emit_standard (env : Env) (event_type : String)
    (user_address : Option Address) (data : List Val)
    (metadata : Metadata) : List Published :=
  let event : StandardEvent :=
    { event_type := event_type
      contract_address := env.current_contract_address
      user_address := user_address
      data := data
      metadata := metadata
      timestamp := env.ledger_timestamp
      version := CURRENT_VERSION }
  [ { topics := [Val.symbol "stellara_event", Val.symbol event.event_type]
    , payload := Payload.stdTuple event.contract_address event.user_address
        event.data event.metadata event.timestamp event.version } ]

/-- `EventEmitter::transfer`. -/
def transfer (env : Env) (from_addr to_addr : Address) (amount : Int)
    (token : Address) : List Published :=
  let data := [Val.i128 amount, Val.address token]
  let metadata :=
    mapSet (mapSet (mapSet (mapSet [] FROM_KEY [Val.address from_addr])
      TO_KEY [Val.address to_addr]) AMOUNT_KEY [Val.i128 amount])
      TOKEN_KEY [Val.address token]
  emit_standard env topics.TRANSFER (some from_addr) data metadata ++
    [ { topics := [Val.symbol topics.TRANSFER, Val.address from_addr,
          Val.address to_addr]
      , payload := Payload.i128 amount } ]

/-- `EventEmitter::approve`. -/
def approve (env : Env) (owner spender : Address) (amount : Int)
    (token : Address) : List Published :=
  let data := [Val.i128 amount, Val.address token]
  let metadata :=
    mapSet (mapSet (mapSet (mapSet [] FROM_KEY [Val.address owner])
      TO_KEY [Val.address spender]) AMOUNT_KEY [Val.i128 amount])
      TOKEN_KEY [Val.address token]
  emit_standard env topics.APPROVE (some owner) data metadata ++
    [ { topics := [Val.symbol topics.APPROVE, Val.address owner,
          Val.address spender]
      , payload := Payload.i128 amount } ]

/-- `EventEmitter::mint`: the optional `reason` is interned and appended
to `data` and recorded under `REASON_KEY` only when present. -/
def mint (env : Env) (to_addr : Address) (amount : Int) (token : Address)
    (reason : Option String) : List Published :=
  let data :=
    [Val.i128 amount, Val.address token] ++
      (match reason with
       | some r => [Val.symbol r]
       | none => [])
  let metadata :=
    mapSet (mapSet (mapSet [] TO_KEY [Val.address to_addr])
      AMOUNT_KEY [Val.i128 amount]) TOKEN_KEY [Val.address token]
  let metadata :=
    match reason with
    | some r => mapSet metadata REASON_KEY [Val.symbol r]
    | none => metadata
  emit_standard env topics.MINT (some to_addr) data metadata ++
    [ { topics := [Val.symbol topics.MINT, Val.address to_addr]
      , payload := Payload.i128 amount } ]

/-- `EventEmitter::burn`. -/
def burn (env : Env) (from_addr : Address) (amount : Int)
    (token : Address) : List Published :=
  let data := [Val.i128 amount, Val.address token]
  let metadata :=
    mapSet (mapSet (mapSet [] FROM_KEY [Val.address from_addr])
      AMOUNT_KEY [Val.i128 amount]) TOKEN_KEY [Val.address token]
  emit_standard env topics.BURN (some from_addr) data metadata ++
    [ { topics := [Val.symbol topics.BURN, Val.address from_addr]
      , payload := Payload.i128 amount } ]

/-- `EventEmitter::stake`. -/
def stake (env : Env) (user : Address) (amount : Int) (lock_period : Nat)
    (token : Address) : List Published :=
  let data := [Val.i128 amount, Val.u64 lock_period, Val.address token]
  let metadata :=
    mapSet (mapSet (mapSet [] AMOUNT_KEY [Val.i128 amount])
      LOCK_PERIOD_KEY [Val.u64 lock_period]) TOKEN_KEY [Val.address token]
  emit_standard env topics.STAKE (some user) data metadata ++
    [ { topics := [Val.symbol topics.STAKE, Val.address user]
      , payload := Payload.tupleP [Val.i128 amount, Val.u64 lock_period,
          Val.u64 env.ledger_timestamp] } ]

/-- `EventEmitter::unstake`. -/
def unstake (env : Env) (user : Address) (amount rewards fee : Int)
    (token : Address) : List Published :=
  let data := [Val.i128 amount, Val.i128 rewards, Val.i128 fee,
    Val.address token]
  let metadata :=
    mapSet (mapSet (mapSet [] AMOUNT_KEY [Val.i128 amount])
      FEE_KEY [Val.i128 fee]) TOKEN_KEY [Val.address token]
  emit_standard env topics.UNSTAKE (some user) data metadata ++
    [ { topics := [Val.symbol topics.UNSTAKE, Val.address user]
      , payload := Payload.tupleP [Val.i128 amount, Val.i128 rewards,
          Val.i128 fee, Val.u64 env.ledger_timestamp] } ]

/-- `EventEmitter::rewards_claimed`: the `amount` metadata entry is
`base_rewards + bonus_rewards` (exact: the build traps on i128
overflow, so a completed call never publishes a wrapped sum). -/
def rewards_claimed (env : Env) (user : Address)
    (base_rewards bonus_rewards : Int) (token : Address) :
    List Published :=
  let data := [Val.i128 base_rewards, Val.i128 bonus_rewards,
    Val.address token]
  let metadata :=
    mapSet (mapSet [] AMOUNT_KEY [Val.i128 (base_rewards + bonus_rewards)])
      TOKEN_KEY [Val.address token]
  emit_standard env topics.REWARDS_CLAIMED (some user) data metadata ++
    [ { topics := [Val.symbol topics.REWARDS_CLAIMED, Val.address user]
      , payload := Payload.tupleP [Val.i128 base_rewards,
          Val.i128 bonus_rewards, Val.u64 env.ledger_timestamp] } ]

/-- `EventEmitter::vote`. -/
def vote (env : Env) (voter : Address) (proposal_id : Nat)
    (vote_type : String) (voting_power : Nat) : List Published :=
  let data := [Val.u64 proposal_id, Val.symbol vote_type,
    Val.u128 voting_power]
  let metadata :=
    mapSet (mapSet [] PROPOSAL_ID_KEY [Val.u64 proposal_id])
      VOTE_TYPE_KEY [Val.symbol vote_type]
  emit_standard env topics.VOTE (some voter) data metadata ++
    [ { topics := [Val.symbol topics.VOTE, Val.address voter]
      , payload := Payload.tupleP [Val.u64 proposal_id,
          Val.symbol vote_type, Val.u128 voting_power,
          Val.u64 env.ledger_timestamp] } ]

/-- `EventEmitter::admin_changed`. -/
def admin_changed (env : Env) (old_admin new_admin : Address) :
    List Published :=
  let data := [Val.address old_admin, Val.address new_admin]
  let metadata :=
    mapSet (mapSet [] FROM_KEY [Val.address old_admin])
      TO_KEY [Val.address new_admin]
  emit_standard env topics.ADMIN_CHANGED (some old_admin) data metadata ++
    [ { topics := [Val.symbol topics.ADMIN_CHANGED, Val.address old_admin]
      , payload := Payload.addressP new_admin } ]

/-- `EventEmitter::authorization_changed`. -/
def authorization_changed (env : Env) (user : Address)
    (authorized : Bool) : List Published :=
  let data := [Val.boolV authorized]
  let metadata := mapSet [] TO_KEY [Val.address user]
  emit_standard env topics.AUTHORIZATION_CHANGED (some user) data
      metadata ++
    [ { topics := [Val.symbol topics.AUTHORIZATION_CHANGED,
          Val.address user]
      , payload := Payload.boolP authorized } ]

/-- `EventEmitter::pool_updated`. -/
def pool_updated (env : Env) (admin : Address) (reward_rate : Int)
    (bonus_multiplier : Nat) : List Published :=
  let data := [Val.i128 reward_rate, Val.u32 bonus_multiplier]
  let metadata := mapSet [] REWARD_RATE_KEY [Val.i128 reward_rate]
  emit_standard env topics.POOL_UPDATED (some admin) data metadata ++
    [ { topics := [Val.symbol topics.POOL_UPDATED, Val.address admin]
      , payload := Payload.tupleP [Val.i128 reward_rate,
          Val.u32 bonus_multiplier, Val.u64 env.ledger_timestamp] } ]

/-- `EventEmitter::trade_executed_legacy`: publish the caller's typed
record unchanged on the bare `(TRADE_EXECUTED,)` channel. -/
def trade_executed_legacy (env : Env) (event : TradeExecutedEvent) :
    List Published :=
  [ { topics := [Val.symbol topics.TRADE_EXECUTED]
    , payload := Payload.trade event } ]

/-- `EventEmitter::fee_collected_legacy`: publish the caller's typed
record unchanged on the bare `(FEE_COLLECTED,)` channel. -/
def fee_collected_legacy (env : Env) (event : FeeCollectedEvent) :
    List Published :=
  [ { topics := [Val.symbol topics.FEE_COLLECTED]
    , payload := Payload.fee event } ]

/-- `EventEmitter::trade_executed`: the legacy record's `trade_id` is
hard-coded to 0 here ("This would be set by the calling contract"). -/
def trade_executed (env : Env) (trader : Address) (pair : String)
    (amount price : Int) (is_buy : Bool) (fee_amount : Int)
    (fee_token : Address) : List Published :=
  let data := [Val.symbol pair, Val.i128 amount, Val.i128 price,
    Val.boolV is_buy, Val.i128 fee_amount, Val.address fee_token]
  let metadata :=
    mapSet (mapSet (mapSet (mapSet (mapSet [] PAIR_KEY [Val.symbol pair])
      AMOUNT_KEY [Val.i128 amount]) PRICE_KEY [Val.i128 price])
      FEE_KEY [Val.i128 fee_amount]) TOKEN_KEY [Val.address fee_token]
  let event : TradeExecutedEvent :=
    { trade_id := 0
      trader := trader
      pair := pair
      amount := amount
      price := price
      is_buy := is_buy
      fee_amount := fee_amount
      fee_token := fee_token
      timestamp := env.ledger_timestamp }
  emit_standard env topics.TRADE_EXECUTED (some trader) data metadata ++
    trade_executed_legacy env event

/-- `EventEmitter::fee_collected`. -/
def fee_collected (env : Env) (payer recipient : Address) (amount : Int)
    (token : Address) : List Published :=
  let data := [Val.i128 amount, Val.address token]
  let metadata :=
    mapSet (mapSet (mapSet (mapSet [] FROM_KEY [Val.address payer])
      TO_KEY [Val.address recipient]) AMOUNT_KEY [Val.i128 amount])
      TOKEN_KEY [Val.address token]
  let event : FeeCollectedEvent :=
    { payer := payer
      recipient := recipient
      amount := amount
      token := token
      timestamp := env.ledger_timestamp }
  emit_standard env topics.FEE_COLLECTED (some payer) data metadata ++
    fee_collected_legacy env event

/-- `EventEmitter::proposal_created`: `title` is interned as a symbol in
`data`, but passed through as a plain string in the legacy payload. -/
def proposal_created (env : Env) (proposer : Address) (proposal_id : Nat)
    (title : String) (proposal_type : String) : List Published :=
  let data := [Val.u64 proposal_id, Val.symbol title,
    Val.symbol proposal_type]
  let metadata := mapSet [] PROPOSAL_ID_KEY [Val.u64 proposal_id]
  emit_standard env topics.PROPOSAL_CREATED (some proposer) data
      metadata ++
    [ { topics := [Val.symbol topics.PROPOSAL_CREATED,
          Val.address proposer]
      , payload := Payload.tupleP [Val.u64 proposal_id, Val.str title,
          Val.symbol proposal_type, Val.u64 env.ledger_timestamp] } ]

/-- `EventEmitter::proposal_executed`. -/
def proposal_executed (env : Env) (executor : Address)
    (proposal_id : Nat) (success : Bool) : List Published :=
  let data := [Val.u64 proposal_id, Val.boolV success]
  let metadata := mapSet [] PROPOSAL_ID_KEY [Val.u64 proposal_id]
  emit_standard env topics.PROPOSAL_EXECUTED (some executor) data
      metadata ++
    [ { topics := [Val.symbol topics.PROPOSAL_EXECUTED,
          Val.address executor]
      , payload := Payload.tupleP [Val.u64 proposal_id,
          Val.boolV success, Val.u64 env.ledger_timestamp] } ]

end EventEmitter

namespace EventSchema

/-- `EventSchema::current_version`. -/
def current_version : Nat := EventEmitter.CURRENT_VERSION

/-- `EventSchema::is_compatible`. -/
def is_compatible (version : Nat) : Bool :=
  decide (version ≤ current_version)

/-- `EventSchema::get_migration_path`: `None` when `from >= to`;
otherwise the curated step lists for (1,2), (1,3) and (2,3), and a
generic single step for any other pair (the Rust `match` translated to
first-match conditionals). -/
def get_migration_path (from_version to_version : Nat) :
    Option (List String) :=
  if from_version ≥ to_version then none
  else
    let steps : List String :=
      if from_version = 1 ∧ to_version = 2 then
        [ "Add metadata fields for enhanced indexing"
        , "Update event type symbols for consistency" ]
      else if (from_version = 1 ∧ to_version = 3) ∨
          (from_version = 2 ∧ to_version = 3) then
        [ "Add batch operation support"
        , "Include gas usage metadata" ]
      else
        ["Migrate from v" ++ toString from_version ++ " to v" ++
          toString to_version]
    some steps

end EventSchema

/-! Observation functions over emission results, used to state the
specification properties. -/

/-- Schema versions of the standardized publishes in an emission. -/
def stdVersions (l : List Published) : List Nat :=
  l.filterMap fun pb =>
    match pb.payload with
    | .stdTuple _ _ _ _ _ v => some v
    | _ => none

/-- Emitter identities of the standardized publishes in an emission. -/
def stdContracts (l : List Published) : List Address :=
  l.filterMap fun pb =>
    match pb.payload with
    | .stdTuple c _ _ _ _ _ => some c
    | _ => none

/-- Whether a channel-key value is an identity (an `Address`). -/
def isAddressVal : Val → Bool
  | .address _ => true
  | _ => false

/-- An emission consists of a standardized publish followed by a legacy
publish whose channel key is `(topic, identities...)` with at least one
identity and whose payload is a positional scalar or tuple (not a typed
record and not a standardized envelope). -/
def legacyKeyedScalar (l : List Published) : Bool :=
  match l with
  | [_, pb] =>
    match pb.topics, pb.payload with
    | Val.symbol _ :: ids, p =>
      !ids.isEmpty && ids.all isAddressVal &&
        (match p with
         | .trade _ => false
         | .fee _ => false
         | .stdTuple _ _ _ _ _ _ => false
         | _ => true)
    | _, _ => false
  | _ => false

/-- An emission consists of a standardized publish followed by a legacy
publish whose channel key is a bare single-element `(topic,)` and whose
payload is an entire typed event record. -/
def legacyBareRecord (l : List Published) : Bool :=
  match l with
  | [_, pb] =>
    match pb.topics, pb.payload with
    | [Val.symbol _], .trade _ => true
    | [Val.symbol _], .fee _ => true
    | _, _ => false
  | _ => false

/-- Timestamp carried inside a typed-record legacy payload, when the
emission ends in one. -/
def legacyRecordTimestamp (l : List Published) : Option Nat :=
  match l with
  | [_, pb] =>
    match pb.payload with
    | .trade e => some e.timestamp
    | .fee e => some e.timestamp
    | _ => none
  | _ => none

/-- The `trade_id`s of all `TradeExecutedEvent` payloads published by an
emission. -/
def tradeIds (l : List Published) : List Nat :=
  l.filterMap fun pb =>
    match pb.payload with
    | .trade e => some e.trade_id
    | _ => none

/-- C1: `EventEmitter::transfer` publishes exactly two events in order:
first the standardized event on the `(stellara_event, transfer)` channel
with actor `Some(from)`, data `[amount, token]`, and metadata mapping
each of the keys `amount`, `from`, `to`, `token` to the single
corresponding value; then exactly one legacy event on the
`(transfer, from, to)` channel with payload `amount`. Both publishes are
built from the same underlying argument values. -/
theorem transfer_dual_channel (env : Env) (f t : Address) (a : Int)
    (tok : Address) :
    ∃ m : Metadata,
      EventEmitter.transfer env f t a tok =
        [ { topics := [Val.symbol "stellara_event",
              Val.symbol topics.TRANSFER]
          , payload := Payload.stdTuple env.current_contract_address
              (some f) [Val.i128 a, Val.address tok] m
              env.ledger_timestamp EventEmitter.CURRENT_VERSION }
        , { topics := [Val.symbol topics.TRANSFER, Val.address f,
              Val.address t]
          , payload := Payload.i128 a } ]
      ∧ mapGet m EventEmitter.AMOUNT_KEY = some [Val.i128 a]
      ∧ mapGet m EventEmitter.FROM_KEY = some [Val.address f]
      ∧ mapGet m EventEmitter.TO_KEY = some [Val.address t]
      ∧ mapGet m EventEmitter.TOKEN_KEY = some [Val.address tok] :=
  ⟨_, rfl, rfl, rfl, rfl, rfl⟩

/-- C2: the Topic Registry's mapping from event kinds to short
identifiers is NOT injective: the core-token `APPROVE` kind and the
governance `PROPOSAL_APPROVED` kind — two distinct registry entries —
are both assigned the identifier `approve`, so the identifier list of
the registry is not pairwise distinct. -/
theorem topic_registry_not_injective :
    topics.APPROVE = topics.PROPOSAL_APPROVED
    ∧ ("APPROVE", topics.APPROVE) ∈ topicRegistry
    ∧ ("PROPOSAL_APPROVED", topics.PROPOSAL_APPROVED) ∈ topicRegistry
    ∧ "APPROVE" ≠ "PROPOSAL_APPROVED"
    ∧ ¬ (topicRegistry.map Prod.snd).Pairwise (· ≠ ·) := by
  refine ⟨rfl, ?_, ?_, ?_, ?_⟩ <;> decide

/-- C3: `EventSchema::is_compatible(v)` is true iff
`v ≤ current_version()`; with `current_version() = 1`,
`is_compatible(1) = true` and `is_compatible(2) = false`. -/
theorem is_compatible_iff (v : Nat) :
    (EventSchema.is_compatible v = true ↔ v ≤ EventSchema.current_version)
    ∧ EventSchema.is_compatible 1 = true
    ∧ EventSchema.is_compatible 2 = false := by
  refine ⟨?_, by decide, by decide⟩
  simp [EventSchema.is_compatible]

/-- Witness for C3 at the concrete version 2. -/
theorem is_compatible_iff_witness :
    EventSchema.is_compatible 2 = false :=
  (is_compatible_iff 2).2.2

/-- C4: `EventSchema::get_migration_path(from, to)` returns some list
iff `from < to`, never returns an empty list, returns the curated step
lists on the known transitions (1,2), (1,3), (2,3), returns none on
(2,2) and (3,1), and on every other increasing pair returns the single
generic step naming both endpoints (e.g. (2,5) names "2" and "5"). -/
theorem migration_path_spec (a b : Nat) :
    ((EventSchema.get_migration_path a b).isSome ↔ a < b)
    ∧ EventSchema.get_migration_path a b ≠ some []
    ∧ (a < b → ¬(a = 1 ∧ b = 2) →
        ¬((a = 1 ∧ b = 3) ∨ (a = 2 ∧ b = 3)) →
        EventSchema.get_migration_path a b =
          some ["Migrate from v" ++ toString a ++ " to v" ++ toString b])
    ∧ EventSchema.get_migration_path 1 2 =
        some [ "Add metadata fields for enhanced indexing"
             , "Update event type symbols for consistency" ]
    ∧ EventSchema.get_migration_path 1 3 =
        some ["Add batch operation support", "Include gas usage metadata"]
    ∧ EventSchema.get_migration_path 2 3 =
        some ["Add batch operation support", "Include gas usage metadata"]
    ∧ EventSchema.get_migration_path 2 2 = none
    ∧ EventSchema.get_migration_path 3 1 = none
    ∧ EventSchema.get_migration_path 2 5 =
        some ["Migrate from v2 to v5"] := by
  refine ⟨?_, ?_, ?_, by decide, by decide, by decide, by decide,
    by decide, by decide⟩
  · unfold EventSchema.get_migration_path
    split
    · simp; omega
    · simp; omega
  · unfold EventSchema.get_migration_path
    split
    · simp
    · split
      · simp
      · split <;> simp
  · intro hlt h12 h13
    unfold EventSchema.get_migration_path
    rw [if_neg (by omega), if_neg h12, if_neg h13]

/-- Witness for C4: the generic-fallback branch at the concrete
increasing pair (2,5). -/
theorem migration_path_spec_witness :
    EventSchema.get_migration_path 2 5 = some ["Migrate from v2 to v5"] :=
  (migration_path_spec 2 5).2.2.1 (by decide) (by decide) (by decide)

/-- C5: the `version` field of every standardized event published by
`emit_standard` — and hence by every domain helper, each of which only
delegates to `emit_standard` — equals the Schema Version Resolver's
current version; the signatures take no version argument, so for all
caller-supplied inputs the stamped version is the resolver's value. -/
theorem version_stamped_by_emitter (env : Env) (et : String)
    (u : Option Address) (d : List Val) (m : Metadata) (x y tok : Address)
    (a b c : Int) (n np n32 : Nat) (s s2 : String) (flag : Bool)
    (r : Option String) :
    stdVersions (EventEmitter.emit_standard env et u d m) =
        [EventSchema.current_version]
    ∧ stdVersions (EventEmitter.transfer env x y a tok) =
        [EventSchema.current_version]
    ∧ stdVersions (EventEmitter.approve env x y a tok) =
        [EventSchema.current_version]
    ∧ stdVersions (EventEmitter.mint env x a tok r) =
        [EventSchema.current_version]
    ∧ stdVersions (EventEmitter.burn env x a tok) =
        [EventSchema.current_version]
    ∧ stdVersions (EventEmitter.stake env x a n tok) =
        [EventSchema.current_version]
    ∧ stdVersions (EventEmitter.unstake env x a b c tok) =
        [EventSchema.current_version]
    ∧ stdVersions (EventEmitter.rewards_claimed env x a b tok) =
        [EventSchema.current_version]
    ∧ stdVersions (EventEmitter.vote env x n s np) =
        [EventSchema.current_version]
    ∧ stdVersions (EventEmitter.admin_changed env x y) =
        [EventSchema.current_version]
    ∧ stdVersions (EventEmitter.authorization_changed env x flag) =
        [EventSchema.current_version]
    ∧ stdVersions (EventEmitter.pool_updated env x a n32) =
        [EventSchema.current_version]
    ∧ stdVersions (EventEmitter.trade_executed env x s a b flag c tok) =
        [EventSchema.current_version]
    ∧ stdVersions (EventEmitter.fee_collected env x y a tok) =
        [EventSchema.current_version]
    ∧ stdVersions (EventEmitter.proposal_created env x n s s2) =
        [EventSchema.current_version]
    ∧ stdVersions (EventEmitter.proposal_executed env x n flag) =
        [EventSchema.current_version] :=
  ⟨rfl, rfl, rfl, rfl, rfl, rfl, rfl, rfl, rfl, rfl, rfl, rfl, rfl, rfl,
   rfl, rfl⟩

/-- C6: the emitter identity of the standardized event published by
`emit_standard` is the execution context's own
`current_contract_address`; it is not a parameter of the call, and two
calls in the same context that differ in every caller-supplied argument
publish the same contract address. -/
theorem emitter_identity_unspoofable (env : Env) (et et2 : String)
    (u u2 : Option Address) (d d2 : List Val) (m m2 : Metadata) :
    stdContracts (EventEmitter.emit_standard env et u d m) =
        [env.current_contract_address]
    ∧ stdContracts (EventEmitter.emit_standard env et u d m) =
        stdContracts (EventEmitter.emit_standard env et2 u2 d2 m2) :=
  ⟨rfl, rfl⟩

/-- C7: `EventEmitter::mint` with `reason = None` publishes a
standardized event with data exactly `[amount, token]` and a metadata
map containing no `reason` key at all; with `reason = Some r` the data
is `[amount, token, interned r]` and the metadata maps `reason` to the
interned reason. -/
theorem mint_optional_reason (env : Env) (to_addr : Address) (a : Int)
    (tok : Address) (r : String) :
    (∃ m : Metadata,
      EventEmitter.mint env to_addr a tok none =
        [ { topics := [Val.symbol "stellara_event",
              Val.symbol topics.MINT]
          , payload := Payload.stdTuple env.current_contract_address
              (some to_addr) [Val.i128 a, Val.address tok] m
              env.ledger_timestamp EventEmitter.CURRENT_VERSION }
        , { topics := [Val.symbol topics.MINT, Val.address to_addr]
          , payload := Payload.i128 a } ]
      ∧ mapGet m EventEmitter.REASON_KEY = none)
    ∧ (∃ m : Metadata,
      EventEmitter.mint env to_addr a tok (some r) =
        [ { topics := [Val.symbol "stellara_event",
              Val.symbol topics.MINT]
          , payload := Payload.stdTuple env.current_contract_address
              (some to_addr) [Val.i128 a, Val.address tok, Val.symbol r]
              m env.ledger_timestamp EventEmitter.CURRENT_VERSION }
        , { topics := [Val.symbol topics.MINT, Val.address to_addr]
          , payload := Payload.i128 a } ]
      ∧ mapGet m EventEmitter.REASON_KEY = some [Val.symbol r]) :=
  ⟨⟨_, rfl, rfl⟩, ⟨_, rfl, rfl⟩⟩

/-- C8: `EventEmitter::rewards_claimed` publishes a standardized event
with data `[base_rewards, bonus_rewards, token]`, whose metadata maps
`amount` to the single value `base_rewards + bonus_rewards` (the exact
integer sum) and `token` to the single value `token`. -/
theorem rewards_claimed_sum (env : Env) (user : Address)
    (base_rewards bonus_rewards : Int) (tok : Address) :
    ∃ m : Metadata,
      EventEmitter.rewards_claimed env user base_rewards bonus_rewards
          tok =
        [ { topics := [Val.symbol "stellara_event",
              Val.symbol topics.REWARDS_CLAIMED]
          , payload := Payload.stdTuple env.current_contract_address
              (some user)
              [Val.i128 base_rewards, Val.i128 bonus_rewards,
                Val.address tok]
              m env.ledger_timestamp EventEmitter.CURRENT_VERSION }
        , { topics := [Val.symbol topics.REWARDS_CLAIMED,
              Val.address user]
          , payload := Payload.tupleP [Val.i128 base_rewards,
              Val.i128 bonus_rewards, Val.u64 env.ledger_timestamp] } ]
      ∧ mapGet m EventEmitter.AMOUNT_KEY =
          some [Val.i128 (base_rewards + bonus_rewards)]
      ∧ mapGet m EventEmitter.TOKEN_KEY = some [Val.address tok] :=
  ⟨_, rfl, rfl, rfl⟩

/-- C9: the trade-executed emission path does not resolve trade ids:
`trade_executed_legacy` publishes the caller's record unchanged, so the
published legacy record carries exactly the caller-resolved `trade_id`;
the parameterless-by-id path `trade_executed` stamps the documented
placeholder 0. -/
theorem trade_id_caller_resolved (env : Env) (e : TradeExecutedEvent)
    (trader : Address) (pair : String) (amount price fee_amount : Int)
    (buy : Bool) (fee_token : Address) :
    EventEmitter.trade_executed_legacy env e =
        [ { topics := [Val.symbol topics.TRADE_EXECUTED]
          , payload := Payload.trade e } ]
    ∧ tradeIds (EventEmitter.trade_executed_legacy env e) = [e.trade_id]
    ∧ tradeIds (EventEmitter.trade_executed env trader pair amount price
        buy fee_amount fee_token) = [0] :=
  ⟨rfl, rfl, rfl⟩

/-- C10: the legacy publishes of `trade_executed` and `fee_collected`
use a bare single-element channel key `(topic,)` with no identities and
carry the entire typed event record — including its own timestamp field,
stamped with the context clock — as payload; every other domain helper's
legacy publish uses a channel key `(topic, identities...)` with at least
one identity and a positional scalar or tuple payload. -/
theorem legacy_channel_shapes (env : Env) (x y tok : Address)
    (a b c : Int) (n np n32 : Nat) (s s2 : String) (flag : Bool)
    (r : Option String) :
    legacyBareRecord (EventEmitter.trade_executed env x s a b flag c tok)
        = true
    ∧ legacyRecordTimestamp
        (EventEmitter.trade_executed env x s a b flag c tok) =
        some env.ledger_timestamp
    ∧ legacyBareRecord (EventEmitter.fee_collected env x y a tok) = true
    ∧ legacyRecordTimestamp (EventEmitter.fee_collected env x y a tok) =
        some env.ledger_timestamp
    ∧ legacyKeyedScalar (EventEmitter.transfer env x y a tok) = true
    ∧ legacyKeyedScalar (EventEmitter.approve env x y a tok) = true
    ∧ legacyKeyedScalar (EventEmitter.mint env x a tok r) = true
    ∧ legacyKeyedScalar (EventEmitter.burn env x a tok) = true
    ∧ legacyKeyedScalar (EventEmitter.stake env x a n tok) = true
    ∧ legacyKeyedScalar (EventEmitter.unstake env x a b c tok) = true
    ∧ legacyKeyedScalar (EventEmitter.rewards_claimed env x a b tok) =
        true
    ∧ legacyKeyedScalar (EventEmitter.vote env x n s np) = true
    ∧ legacyKeyedScalar (EventEmitter.admin_changed env x y) = true
    ∧ legacyKeyedScalar (EventEmitter.authorization_changed env x flag) =
        true
    ∧ legacyKeyedScalar (EventEmitter.pool_updated env x a n32) = true
    ∧ legacyKeyedScalar (EventEmitter.proposal_created env x n s s2) =
        true
    ∧ legacyKeyedScalar (EventEmitter.proposal_executed env x n flag) =
        true :=
  ⟨rfl, rfl, rfl, rfl, rfl, rfl, rfl, rfl, rfl, rfl, rfl, rfl, rfl, rfl,
   rfl, rfl, rfl⟩
